import Mathlib

/-!
Verification of the playback/state-transition core of the RDM6300 video
switcher kiosk (`src/main.py`).

The embedding below translates the pure decision logic of `main.py` into
Lean definitions:

* floats become rationals (`ℚ`), Python `int()` becomes `pyInt`
  (truncation toward zero);
* the pygame audio globals (`audio_fade_state`, the channel, the mixer
  flags, `current_video_duration_sec`) become the `AudioSt` structure,
  and `manage_soundtrack_volume` / `start_soundtrack_for_video` /
  `stop_soundtrack_immediately` become functions on it that additionally
  return the list of `set_volume` writes they perform;
* the mutable locals of `main()` (`cap`, `active_tag_id`,
  `current_video_path_playing`, `target_video_path`, `target_is_idle`,
  `fps`, `fade_in_frames`, `current_playback_frame_count`,
  `previous_video_was_content`) become the `KioskState` structure
  (frame width/height and the black frame buffer are not tracked: no
  claim mentions them);
* external effects are oracles passed in per iteration: `openFn` models
  `cv2.VideoCapture` + `get_video_properties` (`none` = open failed),
  `playOk` models whether `soundtrack.play` returned a channel, `readOk`
  models whether `cap.read()` returned a frame;
* the RFID queue becomes a list of `TagEvent`s from which `get_nowait`
  pops the head;
* one pass of the `while running` body (with the RFID thread active)
  becomes `mainIteration`, which also reports which video path it loaded
  this iteration and the fade alpha it computed (if the blend branch ran).
-/

namespace Kiosk

/-- Python `int()` applied to a rational: truncation toward zero
(`main.py` line 447 computes `int(FADE_DURATION_SECONDS * effective_fps)`). -/
def pyInt (q : ℚ) : ℤ := if 0 ≤ q then ⌊q⌋ else -⌊-q⌋

/-- The `audio_fade_state` global of `main.py`: one of the strings
"NONE", "FADE_IN", "PLAYING", "FADE_OUT". -/
inductive AudioFadeState where
  | NONE
  | FADE_IN
  | PLAYING
  | FADE_OUT
deriving DecidableEq, Repr

/-- The audio-side globals of `main.py`: mixer/soundtrack availability,
the channel handle and its busy flag, the volume last written with
`set_volume`, and `audio_fade_state`. -/
structure AudioSt where
  mixerInit : Bool
  soundtrackLoaded : Bool
  channelSome : Bool
  channelBusy : Bool
  channelVolume : ℚ
  fadeState : AudioFadeState
deriving DecidableEq, Repr

/-- The constant `TARGET_SOUNDTRACK_VOLUME = 0.7` (`main.py` line 136). -/
def targetSoundtrackVolume : ℚ := 7 / 10

/-- Function `manage_soundtrack_volume(video_current_time_sec, fade_duration_config_sec)`
(`main.py` lines 276-324), with the globals it reads passed explicitly:
`dur` is `current_video_duration_sec` and `target` is
`TARGET_SOUNDTRACK_VOLUME`.  Returns the updated audio state and the list
of volumes written with `set_volume`, in order.  This is the body after
the not-busy guard; `manageSoundtrackVolume` adds the guard. -/
def manageAfterGuard (t fade dur target : ℚ) (a : AudioSt) : AudioSt × List ℚ :=
  let p1 : AudioSt × List ℚ :=
    if a.fadeState = AudioFadeState.FADE_IN then
      if t < fade then
        ({ a with channelVolume := min ((t / fade) * target) target },
          [min ((t / fade) * target) target])
      else
        ({ a with fadeState := AudioFadeState.PLAYING, channelVolume := target },
          [target])
    else (a, [])
  let a1 := p1.1
  let fadeOutStart := dur - fade
  let a2 :=
    if a1.fadeState = AudioFadeState.PLAYING ∧ fadeOutStart ≤ t ∧ 0 < dur then
      { a1 with fadeState := AudioFadeState.FADE_OUT }
    else a1
  if a2.fadeState = AudioFadeState.FADE_OUT then
    let tIn := t - fadeOutStart
    if tIn < 0 then
      if a2.channelVolume < target then
        ({ a2 with channelVolume := target }, p1.2 ++ [target])
      else (a2, p1.2)
    else if tIn < fade then
      ({ a2 with channelVolume := max 0 (target * (1 - tIn / fade)) },
        p1.2 ++ [max 0 (target * (1 - tIn / fade))])
    else
      ({ a2 with channelVolume := 0 }, p1.2 ++ [0])
  else (a2, p1.2)

/-- Function `manage_soundtrack_volume` including the
`if not (pygame_mixer_initialized and soundtrack_channel and
soundtrack_channel.get_busy())` guard (`main.py` lines 280-284), which
resets the state to "NONE" and returns without writing any volume. -/
def manageSoundtrackVolume (t fade dur target : ℚ) (a : AudioSt) : AudioSt × List ℚ :=
  if a.mixerInit = true ∧ a.channelSome = true ∧ a.channelBusy = true then
    manageAfterGuard t fade dur target a
  else
    ({ a with fadeState := AudioFadeState.NONE }, [])

/-- Function `stop_soundtrack_immediately` (`main.py` lines 326-331): stop the
channel if it is actually playing, and set `audio_fade_state = "NONE"`. -/
def stopSoundtrackImmediately (a : AudioSt) : AudioSt :=
  let a' :=
    if a.mixerInit = true ∧ a.channelSome = true ∧ a.channelBusy = true then
      { a with channelBusy := false }
    else a
  { a' with fadeState := AudioFadeState.NONE }

/-- Function `start_soundtrack_for_video(video_total_frames, video_fps)`
(`main.py` lines 249-274).  `playOk` models whether `soundtrack.play`
returned a channel.  Returns the new audio state and the new
`current_video_duration_sec` (unchanged if the early guard returns). -/
def startSoundtrackForVideo (playOk : Bool) (totalFrames : ℕ) (videoFps : ℚ)
    (a : AudioSt) (dur : ℚ) : AudioSt × ℚ :=
  if a.mixerInit = true ∧ a.soundtrackLoaded = true then
    let a' :=
      if a.channelSome = true ∧ a.channelBusy = true then
        { a with channelBusy := false }
      else a
    let dur' := if 0 < videoFps then (totalFrames : ℚ) / videoFps else 0
    if playOk then
      ({ a' with channelSome := true, channelBusy := true,
                 channelVolume := 0, fadeState := AudioFadeState.FADE_IN }, dur')
    else
      ({ a' with fadeState := AudioFadeState.NONE }, dur')
  else
    ({ a with fadeState := AudioFadeState.NONE }, dur)

/-- A tag event as put on `rfid_event_queue` by `RfidVideoHandler`
(`main.py` lines 190-206). -/
inductive TagEvent where
  | inserted (id : ℕ)
  | invalid (id : ℕ)
deriving DecidableEq, Repr

/-- The `(fps, width, height, total_frames)` tuple returned by
`get_video_properties` for a successfully opened capture
(`main.py` lines 239-247). -/
structure VideoMeta where
  fps : ℚ
  width : ℕ
  height : ℕ
  totalFrames : ℕ
deriving DecidableEq, Repr

/-- The mutable playback state of `main()` (`main.py` lines 381-392 and
the audio globals). -/
structure KioskState where
  cap : Bool
  activeTagId : Option ℕ
  currentVideoPathPlaying : String
  targetVideoPath : String
  targetIsIdle : Bool
  fps : ℚ
  fadeInFrames : ℤ
  frameCount : ℤ
  previousWasContent : Bool
  audio : AudioSt
  videoDurationSec : ℚ
deriving DecidableEq, Repr

/-- The poll `rfid_event_queue.get_nowait()`: pop at most one event from the queue
(`main.py` line 399); `(none, l)` models `queue.Empty`. -/
def pollEvent : List TagEvent → Option TagEvent × List TagEvent
  | [] => (none, [])
  | e :: rest => (some e, rest)

/-- Section 1 of the main loop, "Process RFID Events"
(`main.py` lines 400-415), applied to the result of one `get_nowait`:
a `TAG_INSERTED` event for a tag different from the active one that
resolves in the validated map retargets playback to that tag's video;
everything else leaves the state unchanged. -/
def processEvent (vmap : List (ℕ × String)) (ev : Option TagEvent)
    (st : KioskState) : KioskState :=
  match ev with
  | some (TagEvent.inserted newId) =>
      if some newId ≠ st.activeTagId then
        match vmap.lookup newId with
        | some path =>
            { st with targetVideoPath := path, targetIsIdle := false }
        | none => st
      else st
  | some (TagEvent.invalid _) => st
  | none => st

/-- The reverse lookup at `main.py` lines 472-477: the first tag ID in
the validated map whose video path equals the loaded target path. -/
def findTagForPath (vmap : List (ℕ × String)) (path : String) : Option ℕ :=
  (vmap.find? (fun p => p.2 = path)).map (fun p => p.1)

/-- The failed-open branch of section 2 (`main.py` lines 427-439):
`previous_video_was_content` is decided from the path that was playing
before (`current_video_path_playing`), the target reverts to idle, the
active tag is cleared and a reload of the idle video is forced. -/
def onLoadFailure (idlePath : String) (st : KioskState) : KioskState :=
  { st with
      cap := false,
      previousWasContent :=
        decide (st.currentVideoPathPlaying ≠ idlePath ∧
                st.currentVideoPathPlaying ≠ ""),
      targetVideoPath := idlePath,
      targetIsIdle := true,
      activeTagId := none,
      currentVideoPathPlaying := "" }

/-- The successful-open tail of section 2 (`main.py` lines 441-494):
recompute the fade budget from the new fps (falling back to the previous
fps), decide whether this load fades in from black, update
`previous_video_was_content`, record the playing path, set or clear the
active tag, adopt valid video properties and start or stop the
soundtrack. -/
def onLoadSuccess (idlePath : String) (fadeDuration : ℚ)
    (vmap : List (ℕ × String)) (playOk : Bool) (meta : VideoMeta)
    (st : KioskState) : KioskState :=
  let effectiveFps := if 0 < meta.fps then meta.fps else st.fps
  let fadeFrames := pyInt (fadeDuration * effectiveFps)
  let isLoadingIdle := st.targetVideoPath = idlePath
  let count : ℤ :=
    if isLoadingIdle then
      (if st.previousWasContent = true then 0 else fadeFrames + 1)
    else 0
  let prev : Bool := if isLoadingIdle then false else true
  let st1 :=
    { st with
        cap := true,
        fadeInFrames := fadeFrames,
        frameCount := count,
        previousWasContent := prev,
        currentVideoPathPlaying := st.targetVideoPath }
  let st2 :=
    if st1.targetIsIdle = true then
      { st1 with activeTagId := none, audio := stopSoundtrackImmediately st1.audio }
    else
      { st1 with activeTagId := findTagForPath vmap st1.targetVideoPath }
  if 0 < meta.fps ∧ 0 < meta.width ∧ 0 < meta.height then
    let st3 := { st2 with fps := meta.fps }
    if st3.targetIsIdle = false then
      let p := startSoundtrackForVideo playOk meta.totalFrames meta.fps
                 st3.audio st3.videoDurationSec
      { st3 with audio := p.1, videoDurationSec := p.2 }
    else st3
  else
    let st3 := { st2 with audio := stopSoundtrackImmediately st2.audio }
    if ¬isLoadingIdle then { st3 with previousWasContent := true } else st3

/-- The end-of-stream / read-error branch of section 3
(`main.py` lines 500-517): release the capture, stop the soundtrack,
record whether a content video had been playing, and revert the target
to the idle video. -/
def onReadFailure (idlePath : String) (st : KioskState) : KioskState :=
  { st with
      cap := false,
      audio := stopSoundtrackImmediately st.audio,
      previousWasContent := st.activeTagId.isSome,
      targetVideoPath := idlePath,
      targetIsIdle := true,
      activeTagId := none }

/-- The effective fade alpha of the display logic at `main.py`
lines 527-533 as a function of the frame count: while
`frame_count <= fade_in_frames` the blend uses
`alpha = min(frame_count / fade_in_frames, 1.0)`; past the threshold the
frame is shown unmodified, i.e. alpha is effectively `1.0`. -/
def fadeAlpha (fadeInFrames frameCount : ℤ) : ℚ :=
  if frameCount ≤ fadeInFrames then
    min ((frameCount : ℚ) / (fadeInFrames : ℚ)) 1
  else 1

/-- The soundtrack-volume management step of section 3
(`main.py` lines 521-523): for a content video with valid fps, call
`manage_soundtrack_volume` with the video time
`current_playback_frame_count / fps` (on the already-incremented
counter). -/
def frameAudio (fadeDuration : ℚ) (st : KioskState) : KioskState :=
  if st.targetIsIdle = false ∧ 0 < st.fps then
    { st with
        audio := (manageSoundtrackVolume ((st.frameCount : ℚ) / st.fps)
          fadeDuration st.videoDurationSec targetSoundtrackVolume st.audio).1 }
  else st

/-- The fade-blend step of section 3 (`main.py` lines 527-533): while
`frame_count <= fade_in_frames` the displayed frame is blended with
black using `alpha = min(frame_count / fade_in_frames, 1.0)`.  The
second component is the alpha the blend branch computed (`none` when the
branch did not run, so the division by `fade_in_frames` was never
evaluated). -/
def frameBlend (st : KioskState) : KioskState × Option ℚ :=
  if st.frameCount ≤ st.fadeInFrames then
    (st, some (min ((st.frameCount : ℚ) / (st.fadeInFrames : ℚ)) 1))
  else (st, none)

/-- Section 3 of the main loop, "Read and Display Frame", for an open
capture (`main.py` lines 497-535).  `readOk = false` is the
`if not ret` branch.  Otherwise the frame counter is incremented, the
soundtrack volume is managed for content video, and the fade blend
runs. -/
def frameStep (idlePath : String) (fadeDuration : ℚ) (readOk : Bool)
    (st : KioskState) : KioskState × Option ℚ :=
  if readOk = false then
    (onReadFailure idlePath st, none)
  else
    frameBlend (frameAudio fadeDuration { st with frameCount := st.frameCount + 1 })

/-- One pass of the `while running` body (`main.py` lines 395-541) with
the RFID thread active: pop at most one queued event, apply it, reload
the capture when the target changed or the capture is not open, then
read/display one frame.  Returns the new state, the remaining event
queue, the list of video paths passed to `cv2.VideoCapture` this
iteration, and the fade alpha computed by the blend branch (if any). -/
def mainIteration (vmap : List (ℕ × String)) (idlePath : String)
    (fadeDuration : ℚ) (openFn : String → Option VideoMeta)
    (playOk readOk : Bool) (st : KioskState) (events : List TagEvent) :
    KioskState × List TagEvent × List String × Option ℚ :=
  let pe := pollEvent events
  let st0 := processEvent vmap pe.1 st
  if st0.currentVideoPathPlaying ≠ st0.targetVideoPath ∨ st0.cap = false then
    match openFn st0.targetVideoPath with
    | none =>
        (onLoadFailure idlePath st0, pe.2, [st0.targetVideoPath], none)
    | some meta =>
        let st1 := onLoadSuccess idlePath fadeDuration vmap playOk meta st0
        let p := frameStep idlePath fadeDuration readOk st1
        (p.1, pe.2, [st0.targetVideoPath], p.2)
  else
    let p := frameStep idlePath fadeDuration readOk st0
    (p.1, pe.2, [], p.2)

/-- The state at entry to the main loop (`main.py` lines 381-392 and the
audio globals at lines 131-159): no capture open, idle video targeted,
placeholder fps of 30, fade budget `int(FADE_DURATION_SECONDS * 30)`. -/
def initialState (idlePath : String) (fadeDuration : ℚ)
    (mixerInit soundtrackLoaded : Bool) : KioskState :=
  { cap := false,
    activeTagId := none,
    currentVideoPathPlaying := "",
    targetVideoPath := idlePath,
    targetIsIdle := true,
    fps := 30,
    fadeInFrames := pyInt (fadeDuration * 30),
    frameCount := 0,
    previousWasContent := false,
    audio :=
      { mixerInit := mixerInit, soundtrackLoaded := soundtrackLoaded,
        channelSome := false, channelBusy := false,
        channelVolume := 0, fadeState := AudioFadeState.NONE },
    videoDurationSec := 0 }

/-- States the main loop can be in at an iteration boundary, for a fixed
configuration but arbitrary per-iteration environment (open results,
play/read success, queued events). -/
inductive Reachable (vmap : List (ℕ × String)) (idlePath : String)
    (fadeDuration : ℚ) (mixerInit soundtrackLoaded : Bool) : KioskState → Prop
  | init : Reachable vmap idlePath fadeDuration mixerInit soundtrackLoaded
      (initialState idlePath fadeDuration mixerInit soundtrackLoaded)
  | step {st : KioskState} (openFn : String → Option VideoMeta)
      (playOk readOk : Bool) (events : List TagEvent) :
      Reachable vmap idlePath fadeDuration mixerInit soundtrackLoaded st →
      Reachable vmap idlePath fadeDuration mixerInit soundtrackLoaded
        (mainIteration vmap idlePath fadeDuration openFn playOk readOk st events).1

/-! ## Shared helper lemmas and example data -/

/-- Characterization of the fade budget, frame counter and
`previous_video_was_content` after a successful load. -/
lemma onLoadSuccess_core (idlePath : String) (fadeDuration : ℚ)
    (vmap : List (ℕ × String)) (playOk : Bool) (meta : VideoMeta)
    (st : KioskState) :
    (onLoadSuccess idlePath fadeDuration vmap playOk meta st).fadeInFrames =
      pyInt (fadeDuration * (if 0 < meta.fps then meta.fps else st.fps)) ∧
    (onLoadSuccess idlePath fadeDuration vmap playOk meta st).frameCount =
      (if st.targetVideoPath = idlePath then
        (if st.previousWasContent = true then 0 else
          pyInt (fadeDuration * (if 0 < meta.fps then meta.fps else st.fps)) + 1)
       else 0) ∧
    (onLoadSuccess idlePath fadeDuration vmap playOk meta st).previousWasContent =
      (if st.targetVideoPath = idlePath then false else true) := by
  unfold onLoadSuccess
  dsimp only
  split_ifs <;> simp_all

/-- Example video metadata used by concrete witnesses: a 25 fps clip. -/
def exMeta : VideoMeta := { fps := 25, width := 640, height := 480, totalFrames := 100 }

/-- Example idle video path used by concrete witnesses. -/
def exIdle : String := "idle.mp4"

/-- Example validated tag-video map used by concrete witnesses. -/
def exVmap : List (ℕ × String) := [(5, "c.mp4")]

/-- Example loop-entry state used by concrete witnesses. -/
def exInit : KioskState := initialState exIdle (3 / 2) false false

/-! ## Claims -/

/-- Claim C1: for a dequeued `TAG_INSERTED` event with tag id `t`: if `t`
equals the currently active tag id, nothing changes; otherwise, if `t` is
a key of the validated tag-video map, the target becomes that tag's video
path and `target_is_idle` becomes false (all other fields, including the
active tag id, unchanged); otherwise the state is unchanged. -/
theorem c1_tag_inserted_policy (vmap : List (ℕ × String)) (st : KioskState)
    (t : ℕ) :
    (st.activeTagId = some t →
      processEvent vmap (some (TagEvent.inserted t)) st = st) ∧
    (st.activeTagId ≠ some t → ∀ p, vmap.lookup t = some p →
      processEvent vmap (some (TagEvent.inserted t)) st =
        { st with targetVideoPath := p, targetIsIdle := false }) ∧
    (st.activeTagId ≠ some t → vmap.lookup t = none →
      processEvent vmap (some (TagEvent.inserted t)) st = st) := by
  refine ⟨?_, ?_, ?_⟩
  · intro h
    simp [processEvent, h]
  · intro h p hp
    have h' : some t ≠ st.activeTagId := fun hh => h hh.symm
    simp [processEvent, h', hp]
  · intro h hp
    have h' : some t ≠ st.activeTagId := fun hh => h hh.symm
    simp [processEvent, h', hp]

/-- Example state with tag 5 active, for the C1 witness. -/
def c1State : KioskState := { exInit with activeTagId := some 5 }

/-- Witness for C1: re-inserting the active tag 5 is a no-op. -/
theorem c1_tag_inserted_policy_witness :
    processEvent exVmap (some (TagEvent.inserted 5)) c1State = c1State :=
  (c1_tag_inserted_policy exVmap c1State 5).1 (by decide)

/-- Claim C2: when `cap.read()` returns no frame, the target reverts to
the idle video, `target_is_idle` becomes true, `active_tag_id` becomes
`None`, the soundtrack is stopped immediately, and
`previous_video_was_content` is set exactly when `active_tag_id` was set;
no fade alpha is computed in that iteration's display step. -/
theorem c2_read_failure_reverts_to_idle (idlePath : String)
    (fadeDuration : ℚ) (st : KioskState) :
    (frameStep idlePath fadeDuration false st).1 = onReadFailure idlePath st ∧
    (frameStep idlePath fadeDuration false st).2 = none ∧
    (onReadFailure idlePath st).targetVideoPath = idlePath ∧
    (onReadFailure idlePath st).targetIsIdle = true ∧
    (onReadFailure idlePath st).activeTagId = none ∧
    (onReadFailure idlePath st).audio = stopSoundtrackImmediately st.audio ∧
    (onReadFailure idlePath st).audio.fadeState = AudioFadeState.NONE ∧
    (onReadFailure idlePath st).previousWasContent = st.activeTagId.isSome := by
  refine ⟨by simp [frameStep], by simp [frameStep], rfl, rfl, rfl, rfl, ?_, rfl⟩
  simp [onReadFailure, stopSoundtrackImmediately]

/-- Claim C3: on a successful load, a content video resets the frame
counter to 0 and sets `previous_video_was_content` true; an idle load
resets the counter to 0 exactly when `previous_video_was_content` was
true and otherwise presets it to `fade_in_frames + 1`, and in either case
resets `previous_video_was_content` to false. -/
theorem c3_load_fade_decision (idlePath : String) (fadeDuration : ℚ)
    (vmap : List (ℕ × String)) (playOk : Bool) (meta : VideoMeta)
    (st : KioskState) :
    (st.targetVideoPath ≠ idlePath →
      (onLoadSuccess idlePath fadeDuration vmap playOk meta st).frameCount = 0 ∧
      (onLoadSuccess idlePath fadeDuration vmap playOk meta st).previousWasContent = true) ∧
    (st.targetVideoPath = idlePath → st.previousWasContent = true →
      (onLoadSuccess idlePath fadeDuration vmap playOk meta st).frameCount = 0 ∧
      (onLoadSuccess idlePath fadeDuration vmap playOk meta st).previousWasContent = false) ∧
    (st.targetVideoPath = idlePath → st.previousWasContent = false →
      (onLoadSuccess idlePath fadeDuration vmap playOk meta st).frameCount =
        (onLoadSuccess idlePath fadeDuration vmap playOk meta st).fadeInFrames + 1 ∧
      (onLoadSuccess idlePath fadeDuration vmap playOk meta st).previousWasContent = false) := by
  obtain ⟨hf, hc, hp⟩ := onLoadSuccess_core idlePath fadeDuration vmap playOk meta st
  refine ⟨?_, ?_, ?_⟩
  · intro h
    rw [hc, hp, if_neg h, if_neg h]
    exact ⟨rfl, rfl⟩
  · intro h hprev
    rw [hc, hp, if_pos h, if_pos h, if_pos hprev]
    exact ⟨rfl, rfl⟩
  · intro h hprev
    rw [hc, hp, hf, if_pos h, if_pos h, hprev]
    exact ⟨by simp, rfl⟩

/-- Example state about to load the content video for tag 5, for the C3
witness. -/
def c3State : KioskState :=
  { exInit with targetVideoPath := "c.mp4", targetIsIdle := false }

/-- Witness for C3: loading a content video resets the counter to 0 and
marks the previous video as content. -/
theorem c3_load_fade_decision_witness :
    (onLoadSuccess exIdle (3 / 2) exVmap true exMeta c3State).frameCount = 0 ∧
    (onLoadSuccess exIdle (3 / 2) exVmap true exMeta c3State).previousWasContent = true :=
  (c3_load_fade_decision exIdle (3 / 2) exVmap true exMeta c3State).1 (by decide)

/-- Example state in which the idle video is playing and the load of a
content video fails, for the C4 counterexample. -/
def c4State : KioskState :=
  { exInit with
      cap := true,
      currentVideoPathPlaying := "idle.mp4",
      targetVideoPath := "c.mp4",
      targetIsIdle := false }

/-- Counterexample to C4 as stated: the failed target is a content video
(`c.mp4`, not the idle video), yet the code sets
`previous_video_was_content` to false, because it tests the previously
playing path (here the idle video) rather than the failed target. -/
theorem c4_counterexample :
    c4State.targetVideoPath ≠ "idle.mp4" ∧
    (onLoadFailure "idle.mp4" c4State).previousWasContent = false := by
  refine ⟨by decide, by decide⟩

/-- Claim C4 (amended): when a load fails, `previous_video_was_content`
is set true if and only if the path that had been playing before
(`current_video_path_playing`) was neither the idle video nor empty; the
target reverts to idle, the active tag is cleared and a reload is
forced. -/
theorem c4_amended (idlePath : String) (st : KioskState) :
    (onLoadFailure idlePath st).previousWasContent =
      decide (st.currentVideoPathPlaying ≠ idlePath ∧
              st.currentVideoPathPlaying ≠ "") ∧
    (onLoadFailure idlePath st).targetVideoPath = idlePath ∧
    (onLoadFailure idlePath st).targetIsIdle = true ∧
    (onLoadFailure idlePath st).activeTagId = none ∧
    (onLoadFailure idlePath st).currentVideoPathPlaying = "" ∧
    (onLoadFailure idlePath st).cap = false :=
  ⟨rfl, rfl, rfl, rfl, rfl, rfl⟩

/-- Example state about to load a content video, for the C5
counterexample. -/
def c5State : KioskState :=
  { exInit with targetVideoPath := "c.mp4", targetIsIdle := false }

/-- Counterexample to C5 as stated: with fade duration 1.5 s and a 25 fps
video the code's fade budget is `int(37.5) = 37`, the truncated value,
whereas the claimed `round(37.5)` is 38. -/
theorem c5_counterexample :
    (onLoadSuccess "idle.mp4" (3 / 2) [] true exMeta c5State).fadeInFrames = 37 ∧
    round ((3 / 2 : ℚ) * 25) = 38 := by
  constructor
  · have h := (onLoadSuccess_core "idle.mp4" (3 / 2) [] true exMeta c5State).1
    rw [h]
    norm_num [exMeta, pyInt, Int.floor_eq_iff]
  · norm_num [round_eq, Int.floor_eq_iff]

/-- Claim C5 (amended): on every successful load the fade budget is
recomputed as `int(fade_duration_seconds * effective_fps)` — Python
truncation toward zero, not rounding — where `effective_fps` is the new
video's fps, falling back to the previous fps when the new fps is not
positive; in particular 1.5 s at 25 fps yields 37 frames, not 38. -/
theorem c5_amended (idlePath : String) (fadeDuration : ℚ)
    (vmap : List (ℕ × String)) (playOk : Bool) (meta : VideoMeta)
    (st : KioskState) :
    (onLoadSuccess idlePath fadeDuration vmap playOk meta st).fadeInFrames =
      pyInt (fadeDuration * (if 0 < meta.fps then meta.fps else st.fps)) ∧
    pyInt ((3 / 2 : ℚ) * 25) = 37 :=
  ⟨(onLoadSuccess_core idlePath fadeDuration vmap playOk meta st).1,
    by norm_num [pyInt, Int.floor_eq_iff]⟩

/-- Claim C7: for every fade budget of at least one frame, the effective
fade alpha satisfies `alpha 0 = 0`, `alpha c = 1` for every
`c ≥ fade_in_frames`, and is monotonically non-decreasing in the frame
count. -/
theorem c7_fade_alpha_shape (f : ℤ) (hf : 1 ≤ f) :
    fadeAlpha f 0 = 0 ∧
    (∀ c : ℤ, f ≤ c → fadeAlpha f c = 1) ∧
    (∀ c1 c2 : ℤ, c1 ≤ c2 → fadeAlpha f c1 ≤ fadeAlpha f c2) := by
  have hf0 : (0 : ℚ) < (f : ℚ) := by exact_mod_cast lt_of_lt_of_le one_pos hf
  refine ⟨?_, ?_, ?_⟩
  · have h0 : (0 : ℤ) ≤ f := by linarith
    simp [fadeAlpha, h0]
  · intro c hc
    by_cases h : c ≤ f
    · have hcf : c = f := le_antisymm h hc
      subst hcf
      simp [fadeAlpha, div_self (ne_of_gt hf0)]
    · simp [fadeAlpha, h]
  · intro c1 c2 h12
    by_cases h1 : c1 ≤ f <;> by_cases h2 : c2 ≤ f
    · have hc : (c1 : ℚ) ≤ (c2 : ℚ) := by exact_mod_cast h12
      simp only [fadeAlpha, if_pos h1, if_pos h2]
      exact min_le_min (by gcongr) le_rfl
    · simp only [fadeAlpha, if_pos h1, if_neg h2]
      exact min_le_right _ _
    · exact absurd (le_trans h12 h2) h1
    · simp [fadeAlpha, h1, h2]

/-- Witness for C7 at a fade budget of 2 frames. -/
theorem c7_fade_alpha_shape_witness :
    fadeAlpha 2 0 = 0 ∧ fadeAlpha 2 5 = 1 ∧ fadeAlpha 2 1 ≤ fadeAlpha 2 2 := by
  have h := c7_fade_alpha_shape 2 (by decide)
  exact ⟨h.1, h.2.1 5 (by decide), h.2.2 1 2 (by decide)⟩

/-- Bounds for the volume value written during fade-in. -/
lemma fadeInVal_bounds (t fade target : ℚ) (ht : 0 ≤ t) (hf : 0 < fade)
    (htar : 0 ≤ target) :
    0 ≤ min ((t / fade) * target) target ∧
    min ((t / fade) * target) target ≤ target :=
  ⟨le_min (mul_nonneg (div_nonneg ht hf.le) htar) htar, min_le_right _ _⟩

/-- Bounds for the volume value written during fade-out. -/
lemma fadeOutVal_bounds (tIn fade target : ℚ) (htin : 0 ≤ tIn) (hf : 0 < fade)
    (htar : 0 ≤ target) :
    0 ≤ max 0 (target * (1 - tIn / fade)) ∧
    max 0 (target * (1 - tIn / fade)) ≤ target := by
  have hd : 0 ≤ tIn / fade := div_nonneg htin hf.le
  exact ⟨le_max_left _ _, max_le htar (by nlinarith [mul_nonneg htar hd])⟩

/-- Antitonicity of the fade-out volume value in the elapsed fade-out
time. -/
lemma fadeOutVal_antitone (tIn1 tIn2 fade target : ℚ) (h12 : tIn1 ≤ tIn2)
    (h1 : 0 ≤ tIn1) (hf : 0 < fade) (htar : 0 ≤ target) :
    max 0 (target * (1 - tIn2 / fade)) ≤ max 0 (target * (1 - tIn1 / fade)) := by
  have hd : tIn1 / fade ≤ tIn2 / fade := by gcongr
  have hm : target * (1 - tIn2 / fade) ≤ target * (1 - tIn1 / fade) := by nlinarith
  exact max_le_max le_rfl hm

/-- The volumes written by `manage_soundtrack_volume` in the "NONE"
state. -/
lemma manageAfterGuard_none_writes (t fade dur target : ℚ) (a : AudioSt)
    (h : a.fadeState = AudioFadeState.NONE) :
    (manageAfterGuard t fade dur target a).2 = [] := by
  simp [manageAfterGuard, h]

/-- The volumes written by `manage_soundtrack_volume` in the "FADE_OUT"
state. -/
lemma manageAfterGuard_fadeOut_writes (t fade dur target : ℚ) (a : AudioSt)
    (h : a.fadeState = AudioFadeState.FADE_OUT) :
    (manageAfterGuard t fade dur target a).2 =
      (if t - (dur - fade) < 0 then
        (if a.channelVolume < target then [target] else [])
       else if t - (dur - fade) < fade then
        [max 0 (target * (1 - (t - (dur - fade)) / fade))]
       else [0]) := by
  simp [manageAfterGuard, h]
  split_ifs <;> simp_all

/-- The volumes written by `manage_soundtrack_volume` in the "PLAYING"
state. -/
lemma manageAfterGuard_playing_writes (t fade dur target : ℚ) (a : AudioSt)
    (h : a.fadeState = AudioFadeState.PLAYING) :
    (manageAfterGuard t fade dur target a).2 =
      (if dur - fade ≤ t ∧ 0 < dur then
        (if t - (dur - fade) < 0 then
          (if a.channelVolume < target then [target] else [])
         else if t - (dur - fade) < fade then
          [max 0 (target * (1 - (t - (dur - fade)) / fade))]
         else [0])
       else []) := by
  simp [manageAfterGuard, h]
  split_ifs <;> simp_all

/-- The volumes written by `manage_soundtrack_volume` in the "FADE_IN"
state. -/
lemma manageAfterGuard_fadeIn_writes (t fade dur target : ℚ) (a : AudioSt)
    (h : a.fadeState = AudioFadeState.FADE_IN) :
    (manageAfterGuard t fade dur target a).2 =
      (if t < fade then [min ((t / fade) * target) target]
       else if dur - fade ≤ t ∧ 0 < dur then
        (if t - (dur - fade) < 0 then [target]
         else if t - (dur - fade) < fade then
          [target, max 0 (target * (1 - (t - (dur - fade)) / fade))]
         else [target, 0])
       else [target]) := by
  simp [manageAfterGuard, h]
  split_ifs <;> simp_all [lt_irrefl]

/-- In the "FADE_IN" state the first volume written by
`manage_soundtrack_volume` is the fade-in volume. -/
lemma manageAfterGuard_fadeIn_head (t fade dur target : ℚ) (a : AudioSt)
    (h : a.fadeState = AudioFadeState.FADE_IN) :
    ((manageAfterGuard t fade dur target a).2).head? =
      some (if t < fade then min ((t / fade) * target) target else target) := by
  rw [manageAfterGuard_fadeIn_writes t fade dur target a h]
  split_ifs <;> rfl

/-- Claim C8: every volume written by `manage_soundtrack_volume` lies in
`[0, target_volume]`; with fade duration and parameters fixed, the
fade-in volumes written at increasing video times are non-decreasing and
the fade-out volumes written at increasing video times are
non-increasing. -/
theorem c8_volume_bounds_and_monotone (fade dur target : ℚ) (a : AudioSt)
    (hfade : 0 < fade) (htarget : 0 ≤ target) :
    (∀ t : ℚ, 0 ≤ t →
      ∀ w ∈ (manageSoundtrackVolume t fade dur target a).2, 0 ≤ w ∧ w ≤ target) ∧
    (a.fadeState = AudioFadeState.FADE_IN →
      ∀ t1 t2 : ℚ, 0 ≤ t1 → t1 ≤ t2 →
      ∀ w1 w2 : ℚ,
        ((manageSoundtrackVolume t1 fade dur target a).2).head? = some w1 →
        ((manageSoundtrackVolume t2 fade dur target a).2).head? = some w2 →
        w1 ≤ w2) ∧
    (a.fadeState = AudioFadeState.FADE_OUT →
      ∀ t1 t2 : ℚ, t1 ≤ t2 →
      ∀ w1 w2 : ℚ,
        w1 ∈ (manageSoundtrackVolume t1 fade dur target a).2 →
        w2 ∈ (manageSoundtrackVolume t2 fade dur target a).2 →
        w2 ≤ w1) := by
  by_cases hg : a.mixerInit = true ∧ a.channelSome = true ∧ a.channelBusy = true
  case neg =>
    refine ⟨?_, ?_, ?_⟩
    · intro t ht w hw
      simp [manageSoundtrackVolume, hg] at hw
    · intro _ t1 t2 _ _ w1 w2 hw1 hw2
      simp [manageSoundtrackVolume, hg] at hw1
    · intro _ t1 t2 _ w1 w2 hw1 hw2
      simp [manageSoundtrackVolume, hg] at hw1
  case pos =>
  refine ⟨?_, ?_, ?_⟩
  · intro t ht w hw
    simp only [manageSoundtrackVolume, if_pos hg] at hw
    have hguard : ∀ u : ℚ, ¬ u - (dur - fade) < 0 → 0 ≤ u - (dur - fade) := by
      intro u hu
      linarith [not_lt.mp hu]
    rcases hfs : a.fadeState
    case NONE =>
      rw [manageAfterGuard_none_writes t fade dur target a hfs] at hw
      exact absurd hw (List.not_mem_nil w)
    case FADE_IN =>
      rw [manageAfterGuard_fadeIn_writes t fade dur target a hfs] at hw
      split_ifs at hw with h1 h2 h3 h4 <;> simp at hw
      · subst hw
        exact fadeInVal_bounds t fade target ht hfade htarget
      · subst hw
        exact ⟨htarget, le_rfl⟩
      · rcases hw with hw | hw <;> subst hw
        · exact ⟨htarget, le_rfl⟩
        · exact fadeOutVal_bounds (t - (dur - fade)) fade target (hguard t h3) hfade htarget
      · rcases hw with hw | hw <;> subst hw
        · exact ⟨htarget, le_rfl⟩
        · exact ⟨le_rfl, htarget⟩
      · subst hw
        exact ⟨htarget, le_rfl⟩
    case PLAYING =>
      rw [manageAfterGuard_playing_writes t fade dur target a hfs] at hw
      split_ifs at hw with h1 h2 h3 h4 <;> simp at hw
      · subst hw
        exact ⟨htarget, le_rfl⟩
      · subst hw
        exact fadeOutVal_bounds (t - (dur - fade)) fade target (hguard t h2) hfade htarget
      · subst hw
        exact ⟨le_rfl, htarget⟩
    case FADE_OUT =>
      rw [manageAfterGuard_fadeOut_writes t fade dur target a hfs] at hw
      split_ifs at hw with h1 h2 h3 <;> simp at hw
      · subst hw
        exact ⟨htarget, le_rfl⟩
      · subst hw
        exact fadeOutVal_bounds (t - (dur - fade)) fade target (hguard t h1) hfade htarget
      · subst hw
        exact ⟨le_rfl, htarget⟩
  · intro hfs t1 t2 ht1 h12 w1 w2 hw1 hw2
    simp only [manageSoundtrackVolume, if_pos hg] at hw1 hw2
    rw [manageAfterGuard_fadeIn_head t1 fade dur target a hfs,
      Option.some_inj] at hw1
    rw [manageAfterGuard_fadeIn_head t2 fade dur target a hfs,
      Option.some_inj] at hw2
    subst hw1
    subst hw2
    by_cases h1 : t1 < fade <;> by_cases h2 : t2 < fade
    · rw [if_pos h1, if_pos h2]
      refine min_le_min ?_ le_rfl
      have hdiv : t1 / fade ≤ t2 / fade := by gcongr
      exact mul_le_mul_of_nonneg_right hdiv htarget
    · rw [if_pos h1, if_neg h2]
      exact min_le_right _ _
    · exact absurd (lt_of_le_of_lt h12 h2) h1
    · rw [if_neg h1, if_neg h2]
  · intro hfs t1 t2 h12 w1 w2 hw1 hw2
    simp only [manageSoundtrackVolume, if_pos hg] at hw1 hw2
    rw [manageAfterGuard_fadeOut_writes t1 fade dur target a hfs] at hw1
    rw [manageAfterGuard_fadeOut_writes t2 fade dur target a hfs] at hw2
    have k1 : ∀ u : ℚ, ¬ u - (dur - fade) < 0 → 0 ≤ u - (dur - fade) := by
      intro u hu
      linarith [not_lt.mp hu]
    by_cases g1 : t1 - (dur - fade) < 0
    · rw [if_pos g1] at hw1
      by_cases gv : a.channelVolume < target
      · rw [if_pos gv] at hw1
        simp at hw1
        rw [hw1]
        by_cases g2 : t2 - (dur - fade) < 0
        · rw [if_pos g2, if_pos gv] at hw2
          simp at hw2
          exact hw2.le
        · rw [if_neg g2] at hw2
          by_cases g3 : t2 - (dur - fade) < fade
          · rw [if_pos g3] at hw2
            rw [List.mem_singleton] at hw2
            rw [hw2]
            exact (fadeOutVal_bounds (t2 - (dur - fade)) fade target (k1 t2 g2) hfade htarget).2
          · rw [if_neg g3] at hw2
            rw [List.mem_singleton] at hw2
            rw [hw2]
            exact htarget
      · rw [if_neg gv] at hw1
        exact absurd hw1 (List.not_mem_nil w1)
    · rw [if_neg g1] at hw1
      have hg2 : ¬ t2 - (dur - fade) < 0 := by
        intro hcontra
        exact g1 (by linarith)
      rw [if_neg hg2] at hw2
      by_cases g3 : t1 - (dur - fade) < fade
      · rw [if_pos g3] at hw1
        simp at hw1
        subst hw1
        by_cases g4 : t2 - (dur - fade) < fade
        · rw [if_pos g4] at hw2
          simp at hw2
          subst hw2
          exact fadeOutVal_antitone (t1 - (dur - fade)) (t2 - (dur - fade)) fade target
            (by linarith) (k1 t1 g1) hfade htarget
        · rw [if_neg g4] at hw2
          simp at hw2
          subst hw2
          exact le_max_left _ _
      · rw [if_neg g3] at hw1
        simp at hw1
        subst hw1
        have hg4 : ¬ t2 - (dur - fade) < fade := by
          intro hcontra
          exact g3 (by linarith)
        rw [if_neg hg4] at hw2
        simp at hw2
        subst hw2
        exact le_rfl

/-- Example audio state in the "FADE_IN" state with a busy channel, for
the C8 witness. -/
def c8Audio : AudioSt :=
  { mixerInit := true, soundtrackLoaded := true, channelSome := true,
    channelBusy := true, channelVolume := 0, fadeState := AudioFadeState.FADE_IN }

/-- Witness for C8: the volume written one second into a 1.5 s fade-in
lies in `[0, 0.7]`. -/
theorem c8_volume_bounds_and_monotone_witness :
    0 ≤ min ((1 / (3 / 2 : ℚ)) * (7 / 10)) (7 / 10) ∧
    min ((1 / (3 / 2 : ℚ)) * (7 / 10)) (7 / 10) ≤ 7 / 10 :=
  (c8_volume_bounds_and_monotone (3 / 2) 15 (7 / 10) c8Audio
      (by norm_num) (by norm_num)).1 1 (by norm_num)
    (min ((1 / (3 / 2 : ℚ)) * (7 / 10)) (7 / 10))
    (by
      norm_num [manageSoundtrackVolume, manageAfterGuard, c8Audio]
      split_ifs <;> simp)

/-- Claim C9: whenever the state is not "NONE" but the channel is not
busy (or the mixer/channel is unavailable), the next
`manage_soundtrack_volume` call forces the state to "NONE" and writes no
volume. -/
theorem c9_not_busy_forces_idle (t fade dur target : ℚ) (a : AudioSt)
    (hstate : a.fadeState ≠ AudioFadeState.NONE)
    (hbusy : ¬(a.mixerInit = true ∧ a.channelSome = true ∧ a.channelBusy = true)) :
    (manageSoundtrackVolume t fade dur target a).1.fadeState = AudioFadeState.NONE ∧
    (manageSoundtrackVolume t fade dur target a).2 = [] := by
  simp [manageSoundtrackVolume, hbusy]

/-- Example audio state in "PLAYING" whose channel has fallen silent, for
the C9 witness. -/
def c9Audio : AudioSt :=
  { mixerInit := true, soundtrackLoaded := true, channelSome := true,
    channelBusy := false, channelVolume := 7 / 10,
    fadeState := AudioFadeState.PLAYING }

/-- Witness for C9: a silent channel in "PLAYING" is forced to "NONE"
with no volume write. -/
theorem c9_not_busy_forces_idle_witness :
    (manageSoundtrackVolume 1 (3 / 2) 15 (7 / 10) c9Audio).1.fadeState =
      AudioFadeState.NONE ∧
    (manageSoundtrackVolume 1 (3 / 2) 15 (7 / 10) c9Audio).2 = [] :=
  c9_not_busy_forces_idle 1 (3 / 2) 15 (7 / 10) c9Audio
    (by decide) (by decide)

/-! ## Frame-counter invariant (claim C10) -/

/-- The frame counter is never negative unless it was preset past the
fade threshold: the invariant behind the safety of the fade-blend
division. -/
def CounterInv (st : KioskState) : Prop :=
  0 ≤ st.frameCount ∨ st.fadeInFrames + 1 ≤ st.frameCount

/-- Event processing touches only the target fields. -/
lemma processEvent_counters (vmap : List (ℕ × String)) (ev : Option TagEvent)
    (st : KioskState) :
    (processEvent vmap ev st).frameCount = st.frameCount ∧
    (processEvent vmap ev st).fadeInFrames = st.fadeInFrames := by
  rcases ev with _ | e
  · exact ⟨rfl, rfl⟩
  · rcases e with id | id
    · by_cases hc : some id ≠ st.activeTagId
      · rcases h : vmap.lookup id with _ | p <;> simp [processEvent, hc, h]
      · simp [processEvent, hc]
    · exact ⟨rfl, rfl⟩

/-- The audio management step touches only the audio field. -/
lemma frameAudio_counters (fadeDuration : ℚ) (st : KioskState) :
    (frameAudio fadeDuration st).frameCount = st.frameCount ∧
    (frameAudio fadeDuration st).fadeInFrames = st.fadeInFrames := by
  unfold frameAudio
  split_ifs <;> exact ⟨rfl, rfl⟩

/-- The blend step does not change the state. -/
lemma frameBlend_fst (st : KioskState) : (frameBlend st).1 = st := by
  unfold frameBlend
  split_ifs <;> rfl

/-- The counters after one display step: the fade budget is unchanged
and the counter is unchanged (read failure) or incremented. -/
lemma frameStep_counters (idlePath : String) (fadeDuration : ℚ)
    (readOk : Bool) (st : KioskState) :
    (frameStep idlePath fadeDuration readOk st).1.fadeInFrames = st.fadeInFrames ∧
    ((frameStep idlePath fadeDuration readOk st).1.frameCount = st.frameCount ∨
     (frameStep idlePath fadeDuration readOk st).1.frameCount = st.frameCount + 1) := by
  unfold frameStep
  split_ifs with h
  · exact ⟨rfl, Or.inl rfl⟩
  · rw [frameBlend_fst]
    obtain ⟨h1, h2⟩ :=
      frameAudio_counters fadeDuration { st with frameCount := st.frameCount + 1 }
    exact ⟨h2, Or.inr h1⟩

/-- The invariant is preserved by one display step. -/
lemma counterInv_frameStep (idlePath : String) (fadeDuration : ℚ)
    (readOk : Bool) (st : KioskState) (h : CounterInv st) :
    CounterInv (frameStep idlePath fadeDuration readOk st).1 := by
  obtain ⟨hf, hc⟩ := frameStep_counters idlePath fadeDuration readOk st
  unfold CounterInv at h ⊢
  rw [hf]
  rcases hc with hc | hc <;> rw [hc] <;> rcases h with h | h
  · exact Or.inl h
  · exact Or.inr h
  · exact Or.inl (by linarith)
  · exact Or.inr (by linarith)

/-- The invariant holds after any successful load. -/
lemma counterInv_onLoadSuccess (idlePath : String) (fadeDuration : ℚ)
    (vmap : List (ℕ × String)) (playOk : Bool) (meta : VideoMeta)
    (st : KioskState) :
    CounterInv (onLoadSuccess idlePath fadeDuration vmap playOk meta st) := by
  obtain ⟨hf, hc, -⟩ := onLoadSuccess_core idlePath fadeDuration vmap playOk meta st
  unfold CounterInv
  rw [hf, hc]
  by_cases h1 : st.targetVideoPath = idlePath
  · by_cases h2 : st.previousWasContent = true
    · rw [if_pos h1, if_pos h2]
      exact Or.inl le_rfl
    · rw [if_pos h1, if_neg h2]
      exact Or.inr le_rfl
  · rw [if_neg h1]
    exact Or.inl le_rfl

/-- The invariant is preserved by the failed-load fallback. -/
lemma counterInv_onLoadFailure (idlePath : String) (st : KioskState)
    (h : CounterInv st) : CounterInv (onLoadFailure idlePath st) := h

/-- When the blend branch computed an alpha, the state fed to the
display step had a fade budget of at least one frame. -/
lemma frameStep_some_fade (idlePath : String) (fadeDuration : ℚ)
    (readOk : Bool) (st : KioskState) (a : ℚ) (h : CounterInv st)
    (ha : (frameStep idlePath fadeDuration readOk st).2 = some a) :
    1 ≤ st.fadeInFrames := by
  unfold frameStep at ha
  split_ifs at ha with h1
  unfold frameBlend at ha
  obtain ⟨e1, e2⟩ :=
    frameAudio_counters fadeDuration { st with frameCount := st.frameCount + 1 }
  split_ifs at ha with h2
  rw [e1, e2] at h2
  dsimp only at h2
  rcases h with h | h
  · linarith
  · linarith

/-- The invariant is preserved by one full main-loop iteration. -/
lemma counterInv_mainIteration (vmap : List (ℕ × String)) (idlePath : String)
    (fadeDuration : ℚ) (openFn : String → Option VideoMeta)
    (playOk readOk : Bool) (st : KioskState) (events : List TagEvent)
    (h : CounterInv st) :
    CounterInv
      (mainIteration vmap idlePath fadeDuration openFn playOk readOk st events).1 := by
  have h0 : CounterInv (processEvent vmap (pollEvent events).1 st) := by
    obtain ⟨h1, h2⟩ := processEvent_counters vmap (pollEvent events).1 st
    unfold CounterInv at h ⊢
    rw [h1, h2]
    exact h
  unfold mainIteration
  dsimp only
  split_ifs with hcond
  · rcases hopen : openFn (processEvent vmap (pollEvent events).1 st).targetVideoPath
      with _ | meta
    · exact counterInv_onLoadFailure idlePath _ h0
    · exact counterInv_frameStep idlePath fadeDuration readOk _
        (counterInv_onLoadSuccess idlePath fadeDuration vmap playOk meta _)
  · exact counterInv_frameStep idlePath fadeDuration readOk _ h0

/-- Every state reachable at an iteration boundary satisfies the
invariant. -/
lemma reachable_counterInv (vmap : List (ℕ × String)) (idlePath : String)
    (fadeDuration : ℚ) (mixerInit soundtrackLoaded : Bool) (st : KioskState)
    (h : Reachable vmap idlePath fadeDuration mixerInit soundtrackLoaded st) :
    CounterInv st := by
  induction h with
  | init => exact Or.inl le_rfl
  | step openFn playOk readOk events hst ih =>
      exact counterInv_mainIteration vmap idlePath fadeDuration openFn
        playOk readOk _ events ih

/-- Claim C10: in any iteration started from a reachable state, whenever
the fade-blend branch is executed (it computed an alpha, so the division
`frame_count / fade_in_frames` was evaluated), the fade budget in force
— which the iteration leaves unchanged from the moment of the blend — is
at least 1, so the division is never by zero. -/
theorem c10_blend_divisor_positive (vmap : List (ℕ × String))
    (idlePath : String) (fadeDuration : ℚ) (mixerInit soundtrackLoaded : Bool)
    (st : KioskState)
    (hr : Reachable vmap idlePath fadeDuration mixerInit soundtrackLoaded st)
    (openFn : String → Option VideoMeta) (playOk readOk : Bool)
    (events : List TagEvent) (a : ℚ)
    (ha : (mainIteration vmap idlePath fadeDuration openFn playOk readOk
            st events).2.2.2 = some a) :
    1 ≤ (mainIteration vmap idlePath fadeDuration openFn playOk readOk
          st events).1.fadeInFrames := by
  have hinv := reachable_counterInv vmap idlePath fadeDuration mixerInit
    soundtrackLoaded st hr
  have h0 : CounterInv (processEvent vmap (pollEvent events).1 st) := by
    obtain ⟨h1, h2⟩ := processEvent_counters vmap (pollEvent events).1 st
    unfold CounterInv at hinv ⊢
    rw [h1, h2]
    exact hinv
  unfold mainIteration at ha ⊢
  dsimp only at ha ⊢
  split_ifs at ha ⊢ with hcond
  · rcases hopen : openFn (processEvent vmap (pollEvent events).1 st).targetVideoPath
      with _ | meta
    · rw [hopen] at ha
      exact absurd ha (by simp)
    · rw [hopen] at ha
      dsimp only at ha ⊢
      have hload := counterInv_onLoadSuccess idlePath fadeDuration vmap playOk meta
        (processEvent vmap (pollEvent events).1 st)
      have hfade := frameStep_some_fade idlePath fadeDuration readOk _ a hload ha
      rw [(frameStep_counters idlePath fadeDuration readOk _).1]
      exact hfade
  · have hfade := frameStep_some_fade idlePath fadeDuration readOk _ a h0 ha
    rw [(frameStep_counters idlePath fadeDuration readOk _).1]
    exact hfade

/-- The open oracle used by concrete scenario runs: every path opens as
the 25 fps example video. -/
def openAll : String → Option VideoMeta := fun _ => some exMeta

/-- Witness for C10: the first iteration from the initial state with tag
5 queued loads the content video, runs the blend branch, and the fade
budget in force is at least 1. -/
theorem c10_blend_divisor_positive_witness :
    1 ≤ (mainIteration exVmap exIdle (3 / 2) openAll true true
          (initialState exIdle (3 / 2) false false)
          [TagEvent.inserted 5]).1.fadeInFrames :=
  c10_blend_divisor_positive exVmap exIdle (3 / 2) false false
    (initialState exIdle (3 / 2) false false) Reachable.init openAll true true
    [TagEvent.inserted 5] (min ((1 : ℚ) / 37) 1)
    (by
      have hfps : (0 : ℚ) < 25 := by norm_num
      have hp : pyInt ((3 / 2 : ℚ) * 25) = 37 := by
        norm_num [pyInt, Int.floor_eq_iff]
      have s1 : ("c.mp4" : String) ≠ "idle.mp4" := by decide
      have s2 : ("" : String) ≠ "c.mp4" := by decide
      simp [mainIteration, pollEvent, processEvent, onLoadSuccess, frameStep,
        frameAudio, frameBlend, startSoundtrackForVideo,
        stopSoundtrackImmediately, manageSoundtrackVolume, manageAfterGuard,
        findTagForPath, initialState, exVmap, exIdle, openAll, exMeta,
        List.lookup, hfps, hp, s1, s2])

/-- The validated map for the C6 scenario: two distinct mapped tags. -/
def c6Vmap : List (ℕ × String) := [(1, "a.mp4"), (2, "b.mp4")]

/-- C6 scenario start state: the idle video is open and playing. -/
def c6State : KioskState :=
  { exInit with
      cap := true,
      currentVideoPathPlaying := "idle.mp4",
      fps := 25,
      fadeInFrames := 37,
      frameCount := 5 }

/-- First iteration of the C6 burst scenario: two distinct mapped tag
events are queued between frames. -/
def c6Run1 : KioskState × List TagEvent × List String × Option ℚ :=
  mainIteration c6Vmap exIdle (3 / 2) openAll false false c6State
    [TagEvent.inserted 1, TagEvent.inserted 2]

/-- Second iteration of the C6 burst scenario. -/
def c6Run2 : KioskState × List TagEvent × List String × Option ℚ :=
  mainIteration c6Vmap exIdle (3 / 2) openAll false false c6Run1.1 c6Run1.2.1

/-- Counterexample to C6 as stated: with two distinct mapped tags queued
between two frames, the non-blocking poll consumes only the first event
(the second stays queued), the first iteration loads tag 1's video and
the second iteration separately loads tag 2's video — the burst does not
collapse to applying only the most recent effective decision. -/
theorem c6_counterexample :
    c6Run1.2.2.1 = ["a.mp4"] ∧
    c6Run1.2.1 = [TagEvent.inserted 2] ∧
    c6Run2.2.2.1 = ["b.mp4"] := by
  have hfps : (0 : ℚ) < 25 := by norm_num
  have s1 : ("idle.mp4" : String) ≠ "a.mp4" := by decide
  have s2 : ("a.mp4" : String) ≠ "idle.mp4" := by decide
  have s3 : ("a.mp4" : String) ≠ "b.mp4" := by decide
  have s4 : ("b.mp4" : String) ≠ "idle.mp4" := by decide
  have s5 : ("b.mp4" : String) ≠ "a.mp4" := by decide
  refine ⟨?_, ?_, ?_⟩ <;>
    simp [c6Run1, c6Run2, mainIteration, pollEvent, processEvent, onLoadSuccess,
      frameStep, frameAudio, frameBlend, onReadFailure, startSoundtrackForVideo,
      stopSoundtrackImmediately, manageSoundtrackVolume, manageAfterGuard,
      findTagForPath, c6State, c6Vmap, exInit, initialState, exIdle, openAll,
      exMeta, List.lookup, hfps, s1, s2, s3, s4, s5]

/-- Claim C6 (amended): the non-blocking poll consumes exactly one
queued tag event per main-loop iteration (none when the queue is empty),
so a burst of several events queued between two frames is processed one
per iteration rather than drained at once, and each iteration issues at
most one video load; only re-insertions of the already-active tag or
unmapped tags are no-ops, so a burst of distinct mapped tags triggers
one target change and reload per event. -/
theorem c6_amended (vmap : List (ℕ × String)) (idlePath : String)
    (fadeDuration : ℚ) (openFn : String → Option VideoMeta)
    (playOk readOk : Bool) (st : KioskState) :
    (∀ e : TagEvent, ∀ es : List TagEvent,
      (mainIteration vmap idlePath fadeDuration openFn playOk readOk st
        (e :: es)).2.1 = es) ∧
    (mainIteration vmap idlePath fadeDuration openFn playOk readOk st []).2.1 = [] ∧
    (∀ events : List TagEvent,
      (mainIteration vmap idlePath fadeDuration openFn playOk readOk st
        events).2.2.1.length ≤ 1) := by
  have hq : ∀ events : List TagEvent,
      (mainIteration vmap idlePath fadeDuration openFn playOk readOk st
        events).2.1 = (pollEvent events).2 ∧
      (mainIteration vmap idlePath fadeDuration openFn playOk readOk st
        events).2.2.1.length ≤ 1 := by
    intro events
    unfold mainIteration
    dsimp only
    split_ifs with hcond
    · rcases openFn (processEvent vmap (pollEvent events).1 st).targetVideoPath
        with _ | meta
      · exact ⟨rfl, by simp⟩
      · exact ⟨rfl, by simp⟩
    · exact ⟨rfl, by simp⟩
  exact ⟨fun e es => (hq (e :: es)).1, (hq []).1, fun events => (hq events).2⟩

end Kiosk
